import Mathlib

/-!
# Otter Browser address field (`src/ui/AddressWidget.cpp`)

A shallow embedding of `Otter::AddressWidget`: the widget is a record of its
member variables together with the part of the inherited `QLineEdit` state the
member functions read or write (text, focus, geometry, text margins) and the
table of signal/slot connections whose receiver is the widget.  Everything the
widget only consumes (settings store, bookmark store, the bound `Window`, the
input interpreter, `QUrl`) is collected in `Env` and passed to each member
function, so the environment may differ from one call to the next.
-/

namespace Otter

/-! ## Qt value types -/

/-- Whitespace test of `QChar::isSpace`, which `QString::trimmed` uses: the
ASCII controls 9..13, the space, U+0085, U+00A0 and the Unicode separator
categories Zs, Zl, Zp. -/
def isSpace (c : Char) : Bool :=
  let u := c.toNat
  u == 0x20 || (0x09 ≤ u && u ≤ 0x0d) ||
    (u > 127 && (u == 0x85 || u == 0xa0 || u == 0x1680 || (0x2000 ≤ u && u ≤ 0x200a) ||
      u == 0x2028 || u == 0x2029 || u == 0x202f || u == 0x205f || u == 0x3000))

/-- The function `QString::trimmed`: whitespace removed from both ends. -/
def trimmed (t : String) : String :=
  ⟨((t.data.dropWhile isSpace).reverse.dropWhile isSpace).reverse⟩

/-- A text consisting of whitespace only (the empty text included). -/
def isBlank (t : String) : Prop := ∀ c ∈ t.data, isSpace c = true

instance (t : String) : Decidable (isBlank t) := by
  unfold isBlank
  infer_instance

/-- The two observations the widget makes of a `QUrl`. -/
structure QUrl where
  scheme : String
  toString : String
deriving DecidableEq, Repr

/-- An icon: one looked up by name with `Utils::getIcon`, or the icon a page reports. -/
inductive QIcon where
  | theme (name : String)
  | page (id : Nat)
deriving DecidableEq, Repr

/-- The enumeration `QIcon::Mode`. -/
inductive IconMode where
  | Normal
  | Disabled
  | Active
  | Selected
deriving DecidableEq, Repr

/-- The result of `QIcon::pixmap(size, mode)`. -/
structure QPixmap where
  icon : QIcon
  width : Int
  height : Int
  mode : IconMode
deriving DecidableEq, Repr

/-- The state of a decoration `QLabel` that the widget sets or reads. -/
structure QLabel where
  objectName : String
  x : Int
  y : Int
  width : Int
  height : Int
  pixmap : Option QPixmap
  toolTip : String
  enabled : Bool
  arrowCursor : Bool
  shown : Bool
deriving DecidableEq, Repr

/-- A label as `new QLabel(this)` leaves it: at the origin of its parent, enabled,
without pixmap or tooltip; `w` and `h` are the size the toolkit gives it before
`setFixedSize`. -/
def QLabel.fresh (w h : Int) : QLabel :=
  { objectName := "", x := 0, y := 0, width := w, height := h, pixmap := none,
    toolTip := "", enabled := true, arrowCursor := false, shown := false }

/-- The call `QWidget::move`. -/
def QLabel.move (l : QLabel) (x y : Int) : QLabel := { l with x := x, y := y }

/-- The call `QObject::setObjectName`. -/
def QLabel.setObjectName (l : QLabel) (n : String) : QLabel := { l with objectName := n }

/-- The call `QWidget::setFixedSize`. -/
def QLabel.setFixedSize (l : QLabel) (w h : Int) : QLabel := { l with width := w, height := h }

/-- The call `QWidget::setToolTip`. -/
def QLabel.setToolTip (l : QLabel) (t : String) : QLabel := { l with toolTip := t }

/-- The call `QWidget::setEnabled`. -/
def QLabel.setEnabled (l : QLabel) (b : Bool) : QLabel := { l with enabled := b }

/-- The call `setCursor(Qt::ArrowCursor)`. -/
def QLabel.setArrowCursor (l : QLabel) : QLabel := { l with arrowCursor := true }

/-- The call `QWidget::show`. -/
def QLabel.showLabel (l : QLabel) : QLabel := { l with shown := true }

/-- The call `icon.pixmap(label->size(), mode)` followed by `label->setPixmap`. -/
def QLabel.setIconPixmap (l : QLabel) (icon : QIcon) (mode : IconMode) : QLabel :=
  { l with pixmap := some ⟨icon, l.width, l.height, mode⟩ }

/-- The sender of a connection whose receiver is the address widget.  A page's
"load plugins" action is identified by the `Window` whose contents widget owns it. -/
inductive Sender where
  | window (w : Nat)
  | loadPluginsAction (w : Nat)
  | settingsManager
  | bookmarksManager
  | self
deriving DecidableEq, Repr

/-- One signal/slot connection with the address widget as receiver. -/
structure Connection where
  sender : Sender
  signal : String
  slot : String
deriving DecidableEq, Repr

/-- The three signals the widget forwards from its `InputInterpreter`. -/
inductive Outcome where
  | requestedOpenBookmark (bookmark : Nat) (hints : Nat)
  | requestedOpenUrl (url : QUrl) (hints : Nat)
  | requestedSearch (query : String) (engine : String) (hints : Nat)
deriving DecidableEq, Repr

/-- What a key press does outside the widget's own state. -/
inductive Effect where
  | singleShotSelectAll
  | windowSetFocus (w : Nat)
  | interpreterCreated (text : String) (hints : Nat)
  | emitted (o : Outcome)
deriving DecidableEq, Repr

/-- The part of a `QKeyEvent` the widget reads. -/
structure QKeyEvent where
  key : Nat
  modifiers : Nat
deriving DecidableEq, Repr

/-- The key code `Qt::Key_Escape`. -/
def Key_Escape : Nat := 0x01000000

/-- The key code `Qt::Key_Return`. -/
def Key_Return : Nat := 0x01000004

/-- The key code `Qt::Key_Enter`. -/
def Key_Enter : Nat := 0x01000005

/-! ## Collaborators -/

/-- Everything outside the widget that its member functions consult, as it is at
the time of one call.  A `Window *` is a natural number, `NULL` is `none`. -/
structure World where
  /-- The call `Window::getUrl`. -/
  getUrl : Nat → QUrl
  /-- The call `Window::isUrlEmpty`. -/
  isUrlEmpty : Nat → Bool
  /-- The call `Window::getIcon`. -/
  getIcon : Nat → QIcon
  /-- Whether `getContentsWidget()->getAction(Action::LoadPluginsAction)` is not `NULL`. -/
  hasLoadPluginsAction : Nat → Bool
  /-- Whether that action `isEnabled()`. -/
  loadPluginsEnabled : Nat → Bool
  /-- The call `BookmarksManager::hasBookmark`. -/
  hasBookmark : String → Bool
  /-- The constructor `QUrl(const QString &)`. -/
  toUrl : String → QUrl
  /-- The signals `InputInterpreter::interpret` emits for a text and hints. -/
  interpret : String → Nat → List Outcome
  /-- The call `WindowsManager::calculateOpenHints(modifiers, Qt::LeftButton, CurrentTabOpen)`. -/
  calculateOpenHints : Nat → Nat

/-- The world together with the settings store: `getValue k` is
`SettingsManager::getValue(k).toBool()`. -/
structure Env extends World where
  getValue : String → Bool

/-! ## The widget -/

/-- The state of an `AddressWidget`. -/
structure AddressWidget where
  m_window : Option Nat
  m_bookmarkLabel : Option QLabel
  m_loadPluginsLabel : Option QLabel
  m_urlIconLabel : Option QLabel
  m_simpleMode : Bool
  /-- The completion text of `m_completer`. -/
  completion : String
  text : String
  hasFocus : Bool
  width : Int
  height : Int
  minimumWidth : Int
  /-- The left component of `textMargins()`. -/
  textMarginLeft : Int
  placeholderText : String
  mouseTracking : Bool
  connections : List Connection
  /-- Number of `Bookmark` labels created with `new` and not yet given to `deleteLater`. -/
  bookmarkLabels : Nat
  /-- Number of `LoadPlugins` labels created with `new` and not yet given to `deleteLater`. -/
  loadPluginsLabels : Nat
  /-- Number of `Url` labels created with `new` and not yet given to `deleteLater`. -/
  urlIconLabels : Nat

/-- The call `connect(sender, signal, this, slot)`: one more connection. -/
def AddressWidget.connect (s : AddressWidget) (c : Connection) : AddressWidget :=
  { s with connections := s.connections ++ [c] }

/-- The call `disconnect(sender, signal, this, slot)`: every matching connection goes. -/
def AddressWidget.disconnect (s : AddressWidget) (c : Connection) : AddressWidget :=
  { s with connections := s.connections.filter (fun d => decide (d ≠ c)) }

/-- The connection of a window's `aboutToClose()` to `setWindow()`. -/
def aboutToCloseOf (w : Nat) : Connection := ⟨.window w, "aboutToClose()", "setWindow()"⟩

/-- The connection of a window's `iconChanged(QIcon)` to `setIcon(QIcon)`. -/
def iconChangedOf (w : Nat) : Connection := ⟨.window w, "iconChanged(QIcon)", "setIcon(QIcon)"⟩

/-- The connection of a window's load-plugins action `changed()` to `updateLoadPlugins()`. -/
def actionChangedOf (w : Nat) : Connection :=
  ⟨.loadPluginsAction w, "changed()", "updateLoadPlugins()"⟩

/-- The slot `AddressWidget::setCompletion`. -/
def setCompletion (s : AddressWidget) (text : String) : AddressWidget :=
  { s with completion := text }

/-- The call `QLineEdit::setText`; `textChanged` is emitted when the text differs
and is connected to `setCompletion`. -/
def setText (s : AddressWidget) (t : String) : AddressWidget :=
  if t = s.text then s else setCompletion { s with text := t } t

/-- The function `AddressWidget::updateIcons`. -/
def updateIcons (s : AddressWidget) : AddressWidget :=
  { s with
    m_bookmarkLabel := s.m_bookmarkLabel.map fun l =>
      l.move (s.width - 22) ((s.height - l.height).tdiv 2)
    m_loadPluginsLabel := s.m_loadPluginsLabel.map fun l =>
      l.move (s.width - 22 - (if s.m_bookmarkLabel.isSome then 22 else 0))
        ((s.height - l.height).tdiv 2)
    m_urlIconLabel := s.m_urlIconLabel.map fun l =>
      l.move 36 ((s.height - l.height).tdiv 2) }

/-- The handler `AddressWidget::resizeEvent` for a new size. -/
def resizeEvent (s : AddressWidget) (w h : Int) : AddressWidget :=
  updateIcons { s with width := w, height := h }

/-- The function `AddressWidget::getUrl`. -/
def getUrl (env : Env) (s : AddressWidget) : QUrl :=
  env.toUrl (if s.text = "" then "about:blank" else s.text)

/-- The slot `AddressWidget::updateBookmark`. -/
def updateBookmark (env : Env) (s : AddressWidget) : AddressWidget :=
  match s.m_bookmarkLabel with
  | none => s
  | some l =>
    let url := getUrl env s
    if url.scheme = "about" then
      let l1 := ((l.setEnabled false).setIconPixmap (.theme "bookmarks") .Disabled).setToolTip ""
      { s with m_bookmarkLabel := some l1 }
    else
      let hasBookmark := env.hasBookmark url.toString
      let l1 := ((l.setEnabled true).setIconPixmap (.theme "bookmarks")
        (if hasBookmark then .Active else .Disabled)).setToolTip
          (if hasBookmark then "Remove Bookmark" else "Add Bookmark")
      { s with m_bookmarkLabel := some l1 }

/-- The slot `AddressWidget::updateLoadPlugins`. -/
def updateLoadPlugins (env : Env) (s : AddressWidget) : AddressWidget :=
  let canLoadPlugins : Bool :=
    env.getValue "AddressField/ShowLoadPluginsIcon" &&
      (match s.m_window with
       | some w => env.hasLoadPluginsAction w && env.loadPluginsEnabled w
       | none => false)
  if canLoadPlugins ∧ s.m_loadPluginsLabel = none then
    let l := ((((((QLabel.fresh 100 30).showLabel).setObjectName "LoadPlugins").setFixedSize 16 16
      ).setIconPixmap (.theme "preferences-plugin") .Normal).setArrowCursor).setToolTip
        "Click to load all plugins on the page"
    updateIcons { s with m_loadPluginsLabel := some l,
                         loadPluginsLabels := s.loadPluginsLabels + 1 }
  else if ¬ canLoadPlugins ∧ s.m_loadPluginsLabel ≠ none then
    updateIcons { s with m_loadPluginsLabel := none,
                         loadPluginsLabels := s.loadPluginsLabels - 1 }
  else s

/-- The slot `AddressWidget::optionChanged`; `value` is `value.toBool()`.  In the
ShowLoadPluginsIcon branch the sender is `getAction(Action::LoadPluginsAction)`, and
`connect` or `disconnect` with a `NULL` sender does nothing. -/
def optionChanged (env : Env) (s : AddressWidget) (option : String) (value : Bool) :
    AddressWidget :=
  if option = "AddressField/ShowBookmarkIcon" then
    if value ∧ s.m_bookmarkLabel = none then
      let l := ((((QLabel.fresh 100 30).setObjectName "Bookmark").setFixedSize 16 16
        ).setIconPixmap (.theme "bookmarks") .Disabled).setArrowCursor
      updateIcons { s with m_bookmarkLabel := some l, bookmarkLabels := s.bookmarkLabels + 1 }
    else if ¬ value ∧ s.m_bookmarkLabel ≠ none then
      updateIcons { s with m_bookmarkLabel := none, bookmarkLabels := s.bookmarkLabels - 1 }
    else s
  else if option = "AddressField/ShowUrlIcon" then
    if value ∧ s.m_urlIconLabel = none then
      let l := (((QLabel.fresh 100 30).setObjectName "Url").setFixedSize 16 16).setIconPixmap
                 (match s.m_window with
                  | some w => env.getIcon w
                  | none => .theme "tab") .Normal
      let s1 := { s with m_urlIconLabel := some l, urlIconLabels := s.urlIconLabels + 1,
                         textMarginLeft := 52 }
      let s2 := match s1.m_window with
        | some w => s1.connect (iconChangedOf w)
        | none => s1
      updateIcons s2
    else
      let s1 := if ¬ value ∧ s.m_urlIconLabel ≠ none then
          updateIcons { s with m_urlIconLabel := none, urlIconLabels := s.urlIconLabels - 1 }
        else s
      let s2 := { s1 with textMarginLeft := 30 }
      match s2.m_window with
      | some w => s2.disconnect (iconChangedOf w)
      | none => s2
  else if option = "AddressField/ShowLoadPluginsIcon" ∧ s.m_window ≠ none then
    match s.m_window with
    | some w =>
      let s1 := if value then
          (if env.hasLoadPluginsAction w then s.connect (actionChangedOf w) else s)
        else
          (if env.hasLoadPluginsAction w then s.disconnect (actionChangedOf w) else s)
      updateLoadPlugins env s1
    | none => s
  else s

/-- The slot `AddressWidget::setIcon`. -/
def setIcon (s : AddressWidget) (icon : QIcon) : AddressWidget :=
  { s with m_urlIconLabel := s.m_urlIconLabel.map fun l => l.setIconPixmap icon .Normal }

/-- The slot `AddressWidget::setUrl`. -/
def setUrl (env : Env) (s : AddressWidget) (url : QUrl) : AddressWidget :=
  let s1 := updateBookmark env s
  match s1.m_window with
  | some w =>
    if ¬ s1.hasFocus ∧ url.scheme ≠ "javascript" then
      setText s1 (if env.isUrlEmpty w then "" else url.toString)
    else s1
  | none => s1

/-- The slot `AddressWidget::setWindow`. -/
def setWindow (env : Env) (s : AddressWidget) (window : Option Nat) : AddressWidget :=
  let s1 := match s.m_window with
    | some old =>
      let a := (s.disconnect (aboutToCloseOf old)).disconnect (iconChangedOf old)
      if env.hasLoadPluginsAction old then a.disconnect (actionChangedOf old) else a
    | none => s
  let s2 := { s1 with m_window := window }
  let s3 := match window with
    | some w =>
      let a := if s2.m_urlIconLabel ≠ none then
          (setUrl env (setIcon s2 (env.getIcon w)) (env.getUrl w)).connect (iconChangedOf w)
        else s2
      let b := a.connect (aboutToCloseOf w)
      if env.hasLoadPluginsAction w then b.connect (actionChangedOf w) else b
    | none => s2
  updateLoadPlugins env s3

/-- The function `AddressWidget::handleUserInput`: the interpreter it creates and
the interpreter's signals, which it forwards as its own. -/
def handleUserInput (env : Env) (text : String) (hints : Nat) : List Effect :=
  if text ≠ "" then
    .interpreterCreated text hints :: (env.interpret text hints).map .emitted
  else []

/-- The handler `AddressWidget::keyPressEvent`, from the state `QLineEdit::keyPressEvent`
has left. -/
def keyPressEvent (env : Env) (s : AddressWidget) (event : QKeyEvent) :
    AddressWidget × List Effect :=
  let r : AddressWidget × List Effect :=
    match s.m_window with
    | some w =>
      if event.key = Key_Escape then
        let url := env.getUrl w
        if trimmed s.text = "" ∨ trimmed s.text ≠ url.toString then
          let s1 := setText s (if env.isUrlEmpty w then "" else url.toString)
          if trimmed s1.text ≠ "" ∧ env.getValue "AddressField/SelectAllOnFocus" then
            (s1, [.singleShotSelectAll])
          else (s1, [])
        else (s, [.windowSetFocus w])
      else (s, [])
    | none => (s, [])
  if ¬ r.1.m_simpleMode ∧ (event.key = Key_Enter ∨ event.key = Key_Return) then
    (r.1, r.2 ++ handleUserInput env (trimmed r.1.text) (env.calculateOpenHints event.modifiers))
  else r

/-- The constructor `AddressWidget::AddressWidget(window, simpleMode, parent)`;
`width` and `height` are the size the line edit starts with. -/
def AddressWidget.create (env : Env) (window : Option Nat) (simpleMode : Bool)
    (width height : Int) : AddressWidget :=
  let s0 : AddressWidget :=
    { m_window := none, m_bookmarkLabel := none, m_loadPluginsLabel := none,
      m_urlIconLabel := none, m_simpleMode := simpleMode, completion := "", text := "",
      hasFocus := false, width := width, height := height, minimumWidth := 0,
      textMarginLeft := 0, placeholderText := "", mouseTracking := false, connections := [],
      bookmarkLabels := 0, loadPluginsLabels := 0, urlIconLabels := 0 }
  let s1 := setWindow env s0 window
  let s2 := { s1 with minimumWidth := 100, width := max s1.width 100 }
  let s3 := if ¬ s2.m_simpleMode then
      let a := optionChanged env s2 "AddressField/ShowBookmarkIcon"
        (env.getValue "AddressField/ShowBookmarkIcon")
      let b := optionChanged env a "AddressField/ShowUrlIcon"
        (env.getValue "AddressField/ShowUrlIcon")
      ({ b with placeholderText := "Enter address or search...", mouseTracking := true }
        : AddressWidget).connect
        ⟨.settingsManager, "valueChanged(QString,QVariant)", "optionChanged(QString,QVariant)"⟩
    else s2
  (s3.connect ⟨.self, "textChanged(QString)", "setCompletion(QString)"⟩).connect
    ⟨.bookmarksManager, "modelModified()", "updateBookmark()"⟩

/-! ## Concrete collaborators and fields used to evaluate the code -/

/-- A world with one bookmark, `http://old.example/`; the scheme of a text is what
precedes its first colon; window `w` shows `http://new.example/` with icon `w`, has a
load-plugins action and that action is enabled. -/
def demoWorld : World :=
  { getUrl := fun _ => ⟨"http", "http://new.example/"⟩
    isUrlEmpty := fun _ => false
    getIcon := fun w => .page w
    hasLoadPluginsAction := fun _ => true
    loadPluginsEnabled := fun _ => true
    hasBookmark := fun u => u = "http://old.example/"
    toUrl := fun t => ⟨⟨t.data.takeWhile (fun c => c != ':')⟩, t⟩
    interpret := fun t h => [.requestedSearch t "default" h]
    calculateOpenHints := fun m => m }

/-- The demo world with every boolean setting equal to `b`. -/
def demoEnv (b : Bool) : Env := { demoWorld with getValue := fun _ => b }

/-- A full (not simple) address field bound to window 1, built by the constructor
with every setting on. -/
def demoField : AddressWidget := AddressWidget.create (demoEnv true) (some 1) false 200 24

/-- The demo field after the user typed blanks and a tab. -/
def blankField : AddressWidget := { demoField with text := "  \t " }

/-- The horizontal extents `[x, x + width)` of two labels do not meet. -/
def hDisjoint (a b : QLabel) : Prop := a.x + a.width ≤ b.x ∨ b.x + b.width ≤ a.x

/-- Every decoration label the field holds is 16 pixels wide, as `setFixedSize(16, 16)`
makes it at creation. -/
def slotsAre16Wide (s : AddressWidget) : Prop :=
  (∀ l ∈ s.m_bookmarkLabel, l.width = 16) ∧
  (∀ l ∈ s.m_loadPluginsLabel, l.width = 16) ∧
  (∀ l ∈ s.m_urlIconLabel, l.width = 16)

instance (s : AddressWidget) : Decidable (slotsAre16Wide s) := by
  unfold slotsAre16Wide
  infer_instance

/-- The demo field showing the bookmarked address `http://old.example/`. -/
def bookmarkedField : AddressWidget := { demoField with text := "http://old.example/" }

/-- Icon mode and tooltip of a label, the two things `updateBookmark` decides. -/
def QLabel.look (l : QLabel) : Option IconMode × String := (l.pixmap.map (·.mode), l.toolTip)

/-- The option name `AddressField/ShowBookmarkIcon`. -/
def showBookmarkIcon : String := "AddressField/ShowBookmarkIcon"

/-- The option name `AddressField/ShowUrlIcon`. -/
def showUrlIcon : String := "AddressField/ShowUrlIcon"

/-- The option name `AddressField/ShowLoadPluginsIcon`. -/
def showLoadPluginsIcon : String := "AddressField/ShowLoadPluginsIcon"

/-! ## Sequences of calls -/

/-- One of the calls that reach the field between construction and a rebinding, each
with the environment it runs in. -/
inductive Call where
  | setWindow (env : Env) (window : Option Nat)
  | optionChanged (env : Env) (option : String) (value : Bool)
  | updateLoadPlugins (env : Env)
  | updateBookmark (env : Env)
  | setIcon (icon : QIcon)
  | setUrl (env : Env) (url : QUrl)

/-- The field after a call. -/
def Call.apply (s : AddressWidget) : Call → AddressWidget
  | .setWindow env window => Otter.setWindow env s window
  | .optionChanged env option value => Otter.optionChanged env s option value
  | .updateLoadPlugins env => Otter.updateLoadPlugins env s
  | .updateBookmark env => Otter.updateBookmark env s
  | .setIcon icon => Otter.setIcon s icon
  | .setUrl env url => Otter.setUrl env s url

/-- The field after a sequence of calls, first to last. -/
def runCalls (s : AddressWidget) (calls : List Call) : AddressWidget :=
  calls.foldl Call.apply s

/-- The sender of the connection is page `w` or the load-plugins action of page `w`. -/
def Connection.fromPage (c : Connection) (w : Nat) : Prop :=
  c.sender = .window w ∨ c.sender = .loadPluginsAction w

/-- Every connection from a page or from a page's action is one of the three the widget
makes (about-to-close, icon-changed, action-changed) and comes from the bound page,
except that an action-changed connection may be left over from a page `w` with `L w`. -/
def connectionsBound (L : Nat → Prop) (s : AddressWidget) : Prop :=
  ∀ c ∈ s.connections, (∀ w, ¬ c.fromPage w) ∨ (∃ w, L w ∧ c = actionChangedOf w) ∨
    ∃ w, s.m_window = some w ∧
      (c = aboutToCloseOf w ∨ c = iconChangedOf w ∨ c = actionChangedOf w)

/-- The guard of the third disconnect in `setWindow` lets it through: if the field is
connected to the load-plugins action of the page bound so far, `getAction` still returns
that action in `env`. -/
def canDetach (env : Env) (s : AddressWidget) : Prop :=
  ∀ old ∈ s.m_window, actionChangedOf old ∈ s.connections → env.hasLoadPluginsAction old = true

instance (env : Env) (s : AddressWidget) : Decidable (canDetach env s) := by
  unfold canDetach
  infer_instance

/-- The condition `canDetach` for a `setWindow` call made in state `s`; other calls pass. -/
def Call.canDetach (s : AddressWidget) : Call → Prop
  | .setWindow env _ => Otter.canDetach env s
  | _ => True

/-- The condition `canDetach` at every `setWindow` call of a sequence started in `s`. -/
def canDetachAll (s : AddressWidget) : List Call → Prop
  | [] => True
  | c :: cs => c.canDetach s ∧ canDetachAll (c.apply s) cs

/-- The demo environment at a moment when no page returns a load-plugins action. -/
def noActionEnv : Env := { demoEnv true with hasLoadPluginsAction := fun _ => false }

/-- The first block of `setWindow`: the three disconnects from the page bound so far. -/
def detachWindow (env : Env) (s : AddressWidget) : AddressWidget :=
  match s.m_window with
  | some old =>
    let a := (s.disconnect (aboutToCloseOf old)).disconnect (iconChangedOf old)
    if env.hasLoadPluginsAction old then a.disconnect (actionChangedOf old) else a
  | none => s

/-- The block of `setWindow` guarded by `if (window)`, run on the rebound field. -/
def attachWindow (env : Env) (s : AddressWidget) (w : Nat) : AddressWidget :=
  let a := if s.m_urlIconLabel ≠ none then
      (setUrl env (setIcon s (env.getIcon w)) (env.getUrl w)).connect (iconChangedOf w)
    else s
  let b := a.connect (aboutToCloseOf w)
  if env.hasLoadPluginsAction w then b.connect (actionChangedOf w) else b

/-- The connections are bound in the sense of `connectionsBound` and the bound page is `w`. -/
def boundTo (L : Nat → Prop) (w : Option Nat) (a : AddressWidget) : Prop :=
  connectionsBound L a ∧ a.m_window = w

/-- Windows 1 and 2 rebound with the load-plugins notifications switched on and off in
between, used to evaluate the rebinding theorem. -/
def demoCalls : List Call :=
  [.optionChanged (demoEnv true) showLoadPluginsIcon true,
   .optionChanged (demoEnv true) showUrlIcon false,
   .setWindow (demoEnv false) (some 2),
   .optionChanged (demoEnv true) showUrlIcon true,
   .optionChanged (demoEnv true) showLoadPluginsIcon true,
   .setWindow (demoEnv true) (some 1)]

/-! ## The field together with the settings store -/

/-- The settings store and a field that receives its notifications. -/
structure Sys where
  getValue : String → Bool
  widget : AddressWidget

/-- What can happen to the pair: a rebinding, a run of `updateLoadPlugins`, or a new
value of an option, written to the store and delivered to the field through
`optionChanged`.  Each carries the world as it is at that moment. -/
inductive Step where
  | setWindow (world : World) (window : Option Nat)
  | updateLoadPlugins (world : World)
  | setValue (world : World) (option : String) (value : Bool)

/-- The pair after one step. -/
def Sys.step (σ : Sys) : Step → Sys
  | .setWindow world window =>
    { σ with widget := setWindow { toWorld := world, getValue := σ.getValue } σ.widget window }
  | .updateLoadPlugins world =>
    { σ with widget := updateLoadPlugins { toWorld := world, getValue := σ.getValue } σ.widget }
  | .setValue world option value =>
    let g := fun k => if k = option then value else σ.getValue k
    { getValue := g,
      widget := optionChanged { toWorld := world, getValue := g } σ.widget option value }

/-- The pair after a sequence of steps, first to last. -/
def Sys.run (σ : Sys) (steps : List Step) : Sys := steps.foldl Sys.step σ

/-- The pair right after the constructor has run. -/
def Sys.create (world : World) (getValue : String → Bool) (window : Option Nat)
    (simpleMode : Bool) (width height : Int) : Sys :=
  { getValue := getValue,
    widget := AddressWidget.create { toWorld := world, getValue := getValue } window simpleMode
      width height }

/-- Each slot kind has exactly one live label when its member pointer is set and none
otherwise; a present slot has its flag on; in full (not simple) mode the Bookmark and
PageIcon slots are present exactly when their flags are on. -/
def slotsFollowFlags (σ : Sys) : Prop :=
  (σ.widget.bookmarkLabels = if σ.widget.m_bookmarkLabel.isSome then 1 else 0) ∧
  (σ.widget.urlIconLabels = if σ.widget.m_urlIconLabel.isSome then 1 else 0) ∧
  (σ.widget.loadPluginsLabels = if σ.widget.m_loadPluginsLabel.isSome then 1 else 0) ∧
  (σ.widget.m_bookmarkLabel.isSome = true → σ.getValue showBookmarkIcon = true) ∧
  (σ.widget.m_urlIconLabel.isSome = true → σ.getValue showUrlIcon = true) ∧
  (σ.widget.m_loadPluginsLabel.isSome = true → σ.getValue showLoadPluginsIcon = true) ∧
  (σ.widget.m_simpleMode = false →
    (σ.widget.m_bookmarkLabel.isSome = σ.getValue showBookmarkIcon ∧
     σ.widget.m_urlIconLabel.isSome = σ.getValue showUrlIcon))

/-- Presence and live-label count of one slot kind. -/
abbrev SlotShape := Bool × Nat

/-- The part of the field that decides which slots exist. -/
structure Shape where
  window : Option Nat
  simpleMode : Bool
  bookmark : SlotShape
  urlIcon : SlotShape
  loadPlugins : SlotShape

/-- The shape of a field. -/
def AddressWidget.shape (s : AddressWidget) : Shape :=
  { window := s.m_window, simpleMode := s.m_simpleMode,
    bookmark := (s.m_bookmarkLabel.isSome, s.bookmarkLabels),
    urlIcon := (s.m_urlIconLabel.isSome, s.urlIconLabels),
    loadPlugins := (s.m_loadPluginsLabel.isSome, s.loadPluginsLabels) }

/-- A slot after the create-if-wanted-and-absent, delete-if-unwanted-and-present step
that `optionChanged` and `updateLoadPlugins` share. -/
def SlotShape.toggle (want : Bool) (a : SlotShape) : SlotShape :=
  if want = true ∧ a.1 = false then (true, a.2 + 1)
  else if want = false ∧ a.1 = true then (false, a.2 - 1)
  else a

/-- The condition `canLoadPlugins` of `updateLoadPlugins` for a bound page. -/
def canLoadPlugins (env : Env) (window : Option Nat) : Bool :=
  env.getValue "AddressField/ShowLoadPluginsIcon" &&
    (match window with
     | some w => env.hasLoadPluginsAction w && env.loadPluginsEnabled w
     | none => false)

/-- The statement `slotsFollowFlags` read off the shape, together with the fact that a
PluginsIndicator exists only while a page is bound.  The flags `tb` and `tu` say whether
Bookmark and PageIcon are already known to be present exactly when their options are on
(the constructor establishes that only in full mode). -/
def Shape.follows (g : String → Bool) (tb tu : Bool) (a : Shape) : Prop :=
  (a.bookmark.2 = if a.bookmark.1 then 1 else 0) ∧
  (a.urlIcon.2 = if a.urlIcon.1 then 1 else 0) ∧
  (a.loadPlugins.2 = if a.loadPlugins.1 then 1 else 0) ∧
  (a.bookmark.1 = true → g showBookmarkIcon = true) ∧
  (a.urlIcon.1 = true → g showUrlIcon = true) ∧
  (a.loadPlugins.1 = true → g showLoadPluginsIcon = true) ∧
  (a.loadPlugins.1 = true → a.window ≠ none) ∧
  (tb = true → a.bookmark.1 = g showBookmarkIcon) ∧
  (tu = true → a.urlIcon.1 = g showUrlIcon)

/-! ## Submitting blank text -/

theorem trimmed_of_isBlank (t : String) (h : isBlank t) : trimmed t = "" := by
  have h1 : t.data.dropWhile isSpace = [] := List.dropWhile_eq_nil_iff.mpr h
  simp [trimmed, h1]

/-- C1: submitting an empty or whitespace-only text with Enter or Return, under any
modifiers and in any state, has no effect at all (no interpreter is created and none of
requestedOpenUrl, requestedOpenBookmark, requestedSearch is emitted) and leaves the field
as it was; so does `handleUserInput` called with the empty text, under any hints. -/
theorem C1_blank_submit_emits_nothing (env : Env) (s : AddressWidget) (event : QKeyEvent)
    (hkey : event.key = Key_Enter ∨ event.key = Key_Return) (hblank : isBlank s.text) :
    keyPressEvent env s event = (s, []) ∧ ∀ hints, handleUserInput env "" hints = [] := by
  have hne : event.key ≠ Key_Escape := by
    rcases hkey with h | h <;> rw [h] <;> decide
  have ht := trimmed_of_isBlank s.text hblank
  constructor
  · cases hw : s.m_window <;> simp [keyPressEvent, hw, hne, ht, handleUserInput]
  · intro hints
    simp [handleUserInput]

theorem C1_blank_submit_emits_nothing_witness :
    (Key_Enter = Key_Enter ∨ Key_Enter = Key_Return) ∧ isBlank blankField.text ∧
      (keyPressEvent (demoEnv true) blankField ⟨Key_Enter, 3⟩ = (blankField, []) ∧
        ∀ hints, handleUserInput (demoEnv true) "" hints = []) :=
  ⟨Or.inl rfl, by decide,
    C1_blank_submit_emits_nothing (demoEnv true) blankField ⟨Key_Enter, 3⟩ (Or.inl rfl)
      (by decide)⟩

/-! ## Layout of the decorations -/

/-- C2: in a field at least 100 pixels wide whose labels are 16 pixels wide,
`updateIcons` puts Bookmark at `width - 22`, PluginsIndicator at `width - 44` when
Bookmark is present and at `width - 22` otherwise, PageIcon at 36, keeps the labels 16
wide, and the horizontal extents of any two present labels are disjoint. -/
theorem C2_slots_pairwise_disjoint (s : AddressWidget) (hw : 100 ≤ s.width)
    (h16 : slotsAre16Wide s) :
    (∀ b, (updateIcons s).m_bookmarkLabel = some b → b.x = s.width - 22 ∧ b.width = 16) ∧
    (∀ p, (updateIcons s).m_loadPluginsLabel = some p →
      p.x = (if s.m_bookmarkLabel.isSome then s.width - 44 else s.width - 22) ∧
        p.width = 16) ∧
    (∀ u, (updateIcons s).m_urlIconLabel = some u → u.x = 36 ∧ u.width = 16) ∧
    (∀ b p, (updateIcons s).m_bookmarkLabel = some b →
      (updateIcons s).m_loadPluginsLabel = some p → hDisjoint b p) ∧
    (∀ b u, (updateIcons s).m_bookmarkLabel = some b →
      (updateIcons s).m_urlIconLabel = some u → hDisjoint b u) ∧
    (∀ p u, (updateIcons s).m_loadPluginsLabel = some p →
      (updateIcons s).m_urlIconLabel = some u → hDisjoint p u) := by
  obtain ⟨hb16, hp16, hu16⟩ := h16
  have hB : ∀ b, (updateIcons s).m_bookmarkLabel = some b →
      b.x = s.width - 22 ∧ b.width = 16 := by
    intro b hb
    simp only [updateIcons, Option.map_eq_some'] at hb
    obtain ⟨l, hl, rfl⟩ := hb
    exact ⟨rfl, hb16 l hl⟩
  have hP : ∀ p, (updateIcons s).m_loadPluginsLabel = some p →
      p.x = (if s.m_bookmarkLabel.isSome then s.width - 44 else s.width - 22) ∧
        p.width = 16 := by
    intro p hp
    simp only [updateIcons, Option.map_eq_some'] at hp
    obtain ⟨l, hl, rfl⟩ := hp
    refine ⟨?_, hp16 l hl⟩
    simp only [QLabel.move]
    split <;> omega
  have hU : ∀ u, (updateIcons s).m_urlIconLabel = some u → u.x = 36 ∧ u.width = 16 := by
    intro u hu
    simp only [updateIcons, Option.map_eq_some'] at hu
    obtain ⟨l, hl, rfl⟩ := hu
    exact ⟨rfl, hu16 l hl⟩
  refine ⟨hB, hP, hU, ?_, ?_, ?_⟩
  · intro b p hb hp
    have hsome : s.m_bookmarkLabel.isSome = true := by
      simp only [updateIcons, Option.map_eq_some'] at hb
      obtain ⟨l, hl, -⟩ := hb
      simp [hl]
    obtain ⟨h1, h2⟩ := hB b hb
    obtain ⟨h3, h4⟩ := hP p hp
    simp only [hsome, if_true] at h3
    right
    omega
  · intro b u hb hu
    obtain ⟨h1, h2⟩ := hB b hb
    obtain ⟨h3, h4⟩ := hU u hu
    right
    omega
  · intro p u hp hu
    obtain ⟨h1, h2⟩ := hP p hp
    obtain ⟨h3, h4⟩ := hU u hu
    right
    split at h1 <;> omega

theorem C2_slots_pairwise_disjoint_witness :
    (100 : Int) ≤ demoField.width ∧ slotsAre16Wide demoField ∧
      ((∀ b, (updateIcons demoField).m_bookmarkLabel = some b →
          b.x = demoField.width - 22 ∧ b.width = 16) ∧
      (∀ p, (updateIcons demoField).m_loadPluginsLabel = some p →
        p.x = (if demoField.m_bookmarkLabel.isSome then demoField.width - 44
          else demoField.width - 22) ∧ p.width = 16) ∧
      (∀ u, (updateIcons demoField).m_urlIconLabel = some u → u.x = 36 ∧ u.width = 16) ∧
      (∀ b p, (updateIcons demoField).m_bookmarkLabel = some b →
        (updateIcons demoField).m_loadPluginsLabel = some p → hDisjoint b p) ∧
      (∀ b u, (updateIcons demoField).m_bookmarkLabel = some b →
        (updateIcons demoField).m_urlIconLabel = some u → hDisjoint b u) ∧
      (∀ p u, (updateIcons demoField).m_loadPluginsLabel = some p →
        (updateIcons demoField).m_urlIconLabel = some u → hDisjoint p u)) :=
  ⟨by decide, by decide, C2_slots_pairwise_disjoint demoField (by decide) (by decide)⟩

/-! ## The Cancel key and text synchronisation -/

/-- C8: the Cancel (Escape) key.  With a page `w` bound: when the trimmed text is empty
or differs from the page's URL string, the text becomes that string (the empty string
when the page reports its URL as empty), focus is not handed to the page, and the
effects are one deferred select-all exactly when the new trimmed text is non-empty and
SelectAllOnFocus is on, and nothing otherwise; when the trimmed text equals the URL
string, the field is unchanged and the only effect is handing focus to the page.  With
no page bound the field is unchanged and nothing happens. -/
theorem C8_cancel_key (env : Env) (s : AddressWidget) (mods : Nat) :
    (∀ w, s.m_window = some w →
      (trimmed s.text = "" ∨ trimmed s.text ≠ (env.getUrl w).toString) →
        (keyPressEvent env s ⟨Key_Escape, mods⟩).1.text =
            (if env.isUrlEmpty w then "" else (env.getUrl w).toString) ∧
          (∀ w1, Effect.windowSetFocus w1 ∉ (keyPressEvent env s ⟨Key_Escape, mods⟩).2) ∧
          (keyPressEvent env s ⟨Key_Escape, mods⟩).2 =
            (if trimmed (keyPressEvent env s ⟨Key_Escape, mods⟩).1.text ≠ "" ∧
                env.getValue "AddressField/SelectAllOnFocus" = true
              then [Effect.singleShotSelectAll] else [])) ∧
    (∀ w, s.m_window = some w →
      ¬ (trimmed s.text = "" ∨ trimmed s.text ≠ (env.getUrl w).toString) →
        keyPressEvent env s ⟨Key_Escape, mods⟩ = (s, [Effect.windowSetFocus w])) ∧
    (s.m_window = none → keyPressEvent env s ⟨Key_Escape, mods⟩ = (s, [])) := by
  have hE : Key_Escape ≠ Key_Enter := by decide
  have hR : Key_Escape ≠ Key_Return := by decide
  refine ⟨?_, ?_, ?_⟩
  · intro w hw hc
    have hs : ∀ t, (setText s t).text = t := by
      intro t
      unfold setText setCompletion
      split
      · next h => exact h.symm
      · rfl
    simp only [keyPressEvent, hw, if_true, hc, hE, hR, or_self, and_false, if_false]
    generalize (if env.isUrlEmpty w = true then "" else (env.getUrl w).toString) = t
    by_cases hsel : trimmed t ≠ "" ∧ env.getValue "AddressField/SelectAllOnFocus" = true
    · simp [hs, hsel]
    · simp [hs, hsel]
  · intro w hw hc
    simp [keyPressEvent, hw, hc, hE, hR]
  · intro hw
    simp [keyPressEvent, hw, hE, hR]

/-- C9: `setUrl(u)` leaves the text as it is when the field has focus, or the scheme of
`u` is `javascript`, or no page is bound; when a page `w` is bound, the field has no focus
and the scheme is not `javascript`, the text becomes the string form of `u`, or the
empty string when the page reports its URL as empty. -/
theorem C9_setUrl_text (env : Env) (s : AddressWidget) (u : QUrl) :
    ((s.hasFocus = true ∨ u.scheme = "javascript" ∨ s.m_window = none) →
      (setUrl env s u).text = s.text) ∧
    (∀ w, s.m_window = some w → s.hasFocus = false → u.scheme ≠ "javascript" →
      (setUrl env s u).text = (if env.isUrlEmpty w then "" else u.toString)) := by
  have hb : (updateBookmark env s).text = s.text ∧
      (updateBookmark env s).m_window = s.m_window ∧
      (updateBookmark env s).hasFocus = s.hasFocus := by
    unfold updateBookmark
    split
    · exact ⟨rfl, rfl, rfl⟩
    · dsimp only
      split <;> exact ⟨rfl, rfl, rfl⟩
  obtain ⟨hb1, hb2, hb3⟩ := hb
  have hs : ∀ (a : AddressWidget) t, (setText a t).text = t := by
    intro a t
    unfold setText setCompletion
    split
    · next h => exact h.symm
    · rfl
  constructor
  · intro h
    unfold setUrl
    simp only [hb2, hb3]
    cases hw : s.m_window with
    | none => simpa using hb1
    | some w =>
      rcases h with h | h | h
      · simp [h, hb1]
      · simp [h, hb1]
      · simp [hw] at h
  · intro w hw hf hj
    simp [setUrl, hb2, hb3, hw, hf, hj, hs]

/-! ## Where the code departs from the specification -/

theorem updateLoadPlugins_inset (env : Env) (s : AddressWidget) :
    (updateLoadPlugins env s).textMarginLeft = s.textMarginLeft ∧
      (updateLoadPlugins env s).m_urlIconLabel.isSome = s.m_urlIconLabel.isSome := by
  unfold updateLoadPlugins
  dsimp only
  split_ifs <;> simp [updateIcons]

/-- Supporting fact for C3: `optionChanged` keeps "inset 52 with a PageIcon, inset 30
without" for every notification except `ShowUrlIcon = true` arriving while the PageIcon
is already there. -/
theorem optionChanged_inset (env : Env) (s : AddressWidget) (option : String) (value : Bool)
    (h : s.textMarginLeft = if s.m_urlIconLabel.isSome then 52 else 30)
    (hnew : ¬ (option = "AddressField/ShowUrlIcon" ∧ value = true ∧
      s.m_urlIconLabel.isSome = true)) :
    (optionChanged env s option value).textMarginLeft =
      if (optionChanged env s option value).m_urlIconLabel.isSome then 52 else 30 := by
  have keep : ∀ a : AddressWidget, a.textMarginLeft = s.textMarginLeft →
      a.m_urlIconLabel.isSome = s.m_urlIconLabel.isSome →
      a.textMarginLeft = if a.m_urlIconLabel.isSome then 52 else 30 := by
    intro a e1 e2
    rw [e1, e2]
    exact h
  unfold optionChanged
  by_cases h1 : option = "AddressField/ShowBookmarkIcon"
  · rw [if_pos h1]
    by_cases c1 : value = true ∧ s.m_bookmarkLabel = none
    · rw [if_pos c1]
      apply keep <;> simp [updateIcons]
    · rw [if_neg c1]
      by_cases c2 : ¬ value = true ∧ s.m_bookmarkLabel ≠ none
      · rw [if_pos c2]
        apply keep <;> simp [updateIcons]
      · rw [if_neg c2]
        exact h
  rw [if_neg h1]
  by_cases h2 : option = "AddressField/ShowUrlIcon"
  · rw [if_pos h2]
    cases hl : s.m_urlIconLabel <;> cases value <;> cases hw : s.m_window <;>
      simp_all [updateIcons, AddressWidget.connect, AddressWidget.disconnect]
  rw [if_neg h2]
  by_cases h5 : option = "AddressField/ShowLoadPluginsIcon" ∧ s.m_window ≠ none
  · rw [if_pos h5]
    split
    · next w hw =>
      dsimp only
      obtain ⟨k1, k2⟩ := updateLoadPlugins_inset env
        (if value = true then
          if env.hasLoadPluginsAction w = true then s.connect (actionChangedOf w) else s
        else if env.hasLoadPluginsAction w = true then s.disconnect (actionChangedOf w) else s)
      apply keep
      · rw [k1]
        by_cases c3 : value = true <;> by_cases c4 : env.hasLoadPluginsAction w = true <;>
          simp [c3, c4, AddressWidget.connect, AddressWidget.disconnect]
      · rw [k2]
        by_cases c3 : value = true <;> by_cases c4 : env.hasLoadPluginsAction w = true <;>
          simp [c3, c4, AddressWidget.connect, AddressWidget.disconnect]
    · exact h
  · rw [if_neg h5]
    exact h

/-- C3: a full field built with ShowUrlIcon on has its PageIcon at 36..52 and the left
inset 52; a further `optionChanged(ShowUrlIcon, true)` keeps the PageIcon and drops the
inset to 30, under the icon. -/
theorem C3_repeated_enable_resets_inset :
    demoField.m_simpleMode = false ∧
    demoField.m_urlIconLabel.isSome = true ∧ demoField.textMarginLeft = 52 ∧
    (optionChanged (demoEnv true) demoField showUrlIcon true).m_urlIconLabel.isSome = true ∧
    (optionChanged (demoEnv true) demoField showUrlIcon true).textMarginLeft = 30 := by
  decide

/-- Supporting fact for C4: whatever the field shows, a Bookmark label made by
`optionChanged(ShowBookmarkIcon, true)` has the disabled icon and no tooltip. -/
theorem optionChanged_new_bookmark_look (env : Env) (s : AddressWidget)
    (h : s.m_bookmarkLabel = none) :
    (optionChanged env s "AddressField/ShowBookmarkIcon" true).m_bookmarkLabel.map QLabel.look
      = some (some IconMode.Disabled, "") := by
  simp [optionChanged, h, updateIcons, QLabel.look, QLabel.move, QLabel.setArrowCursor,
    QLabel.setIconPixmap, QLabel.setFixedSize, QLabel.setObjectName, QLabel.fresh]

/-- Supporting fact for C10: the Bookmark label after `setUrl(u)` is the one
`updateBookmark` computes before the text changes; `u` plays no part in it. -/
theorem setUrl_bookmark_label (env : Env) (s : AddressWidget) (u : QUrl) :
    (setUrl env s u).m_bookmarkLabel = (updateBookmark env s).m_bookmarkLabel := by
  have hs : ∀ (a : AddressWidget) (t : String),
      (setText a t).m_bookmarkLabel = a.m_bookmarkLabel := by
    intro a t
    unfold setText
    split <;> rfl
  unfold setUrl
  dsimp only
  split
  · split
    · exact hs _ _
    · rfl
  · rfl

/-- C4: on a field showing a bookmarked address, switching ShowBookmarkIcon off and on
again leaves a Bookmark label with the disabled icon and no tooltip, although
`updateBookmark` run on that very state gives the active icon and `Remove Bookmark`. -/
theorem C4_toggle_leaves_fixed_icon :
    bookmarkedField.m_bookmarkLabel.isSome = true ∧
    (demoEnv true).hasBookmark (getUrl (demoEnv true) bookmarkedField).toString = true ∧
    (optionChanged (demoEnv true)
        (optionChanged (demoEnv true) bookmarkedField showBookmarkIcon false)
        showBookmarkIcon true).m_bookmarkLabel.map QLabel.look =
      some (some IconMode.Disabled, "") ∧
    (updateBookmark (demoEnv true)
        (optionChanged (demoEnv true)
          (optionChanged (demoEnv true) bookmarkedField showBookmarkIcon false)
          showBookmarkIcon true)).m_bookmarkLabel.map QLabel.look =
      some (some IconMode.Active, "Remove Bookmark") := by
  decide

/-- C10: on a bound, unfocused field showing the bookmarked `http://old.example/`,
`setUrl` to the unbookmarked `http://new.example/` changes the text to the new address
and leaves the Bookmark label with the active icon and `Remove Bookmark`. -/
theorem C10_setUrl_shows_previous_membership :
    bookmarkedField.m_window = some 1 ∧ bookmarkedField.hasFocus = false ∧
    bookmarkedField.m_bookmarkLabel.isSome = true ∧
    (demoEnv true).hasBookmark "http://new.example/" = false ∧
    (setUrl (demoEnv true) bookmarkedField ⟨"http", "http://new.example/"⟩).text =
      "http://new.example/" ∧
    (setUrl (demoEnv true) bookmarkedField
        ⟨"http", "http://new.example/"⟩).m_bookmarkLabel.map QLabel.look =
      some (some IconMode.Active, "Remove Bookmark") := by
  decide

/-! ## Rebinding to no page -/

theorem updateLoadPlugins_no_window (env : Env) (s : AddressWidget) (h : s.m_window = none) :
    (updateLoadPlugins env s).m_loadPluginsLabel = none ∧
    (updateLoadPlugins env s).m_urlIconLabel.isSome = s.m_urlIconLabel.isSome ∧
    (updateLoadPlugins env s).m_window = none := by
  unfold updateLoadPlugins
  simp only [h, Bool.and_false, Bool.false_eq_true, false_and, if_false, not_false_eq_true,
    true_and]
  split
  · simp [updateIcons]
  · next hn =>
    simp only [ne_eq, not_not] at hn
    exact ⟨hn, rfl, h⟩

/-- C7 as stated fails: the demo field has a PageIcon, and after `setWindow(NULL)` it
still has one. -/
theorem C7_page_icon_survives_null_window :
    ¬ ((setWindow (demoEnv true) demoField none).m_urlIconLabel = none ∧
       (setWindow (demoEnv true) demoField none).m_loadPluginsLabel = none) := by
  decide

/-- C7 amended: after `setWindow(NULL)`, in every state and environment, no page is
bound and the PluginsIndicator slot is Absent, while the PageIcon slot is Present
exactly when it was Present before the call. -/
theorem C7_null_window_slots (env : Env) (s : AddressWidget) :
    (setWindow env s none).m_window = none ∧
    (setWindow env s none).m_loadPluginsLabel = none ∧
    (setWindow env s none).m_urlIconLabel.isSome = s.m_urlIconLabel.isSome := by
  have key : ∀ a : AddressWidget, a.m_urlIconLabel = s.m_urlIconLabel →
      (updateLoadPlugins env { a with m_window := none }).m_window = none ∧
      (updateLoadPlugins env { a with m_window := none }).m_loadPluginsLabel = none ∧
      (updateLoadPlugins env { a with m_window := none }).m_urlIconLabel.isSome =
        s.m_urlIconLabel.isSome := by
    intro a ha
    obtain ⟨h1, h2, h3⟩ := updateLoadPlugins_no_window env { a with m_window := none } rfl
    exact ⟨h3, h1, by rw [h2, ← ha]⟩
  unfold setWindow
  cases hw : s.m_window with
  | none => exact key s rfl
  | some old =>
    simp only
    split
    · exact key _ rfl
    · exact key _ rfl


/-! ## Subscriptions across a rebinding -/

theorem updateIcons_frame (s : AddressWidget) :
    (updateIcons s).connections = s.connections ∧ (updateIcons s).m_window = s.m_window :=
  ⟨rfl, rfl⟩

theorem updateBookmark_frame (env : Env) (s : AddressWidget) :
    (updateBookmark env s).connections = s.connections ∧
      (updateBookmark env s).m_window = s.m_window := by
  unfold updateBookmark
  split
  · exact ⟨rfl, rfl⟩
  · dsimp only
    split <;> exact ⟨rfl, rfl⟩

theorem updateLoadPlugins_frame (env : Env) (s : AddressWidget) :
    (updateLoadPlugins env s).connections = s.connections ∧
      (updateLoadPlugins env s).m_window = s.m_window := by
  unfold updateLoadPlugins
  dsimp only
  split_ifs <;> exact ⟨rfl, rfl⟩

theorem setText_frame (s : AddressWidget) (t : String) :
    (setText s t).connections = s.connections ∧ (setText s t).m_window = s.m_window := by
  unfold setText
  split <;> exact ⟨rfl, rfl⟩

theorem setUrl_frame (env : Env) (s : AddressWidget) (u : QUrl) :
    (setUrl env s u).connections = s.connections ∧ (setUrl env s u).m_window = s.m_window := by
  obtain ⟨h1, h2⟩ := updateBookmark_frame env s
  unfold setUrl
  dsimp only
  split
  · split
    · obtain ⟨h3, h4⟩ := setText_frame (updateBookmark env s)
        (if env.isUrlEmpty _ = true then "" else u.toString)
      exact ⟨h3.trans h1, h4.trans h2⟩
    · exact ⟨h1, h2⟩
  · exact ⟨h1, h2⟩

theorem connectionsBound_of_eq (L : Nat → Prop) (s t : AddressWidget)
    (hc : t.connections = s.connections) (hw : t.m_window = s.m_window)
    (h : connectionsBound L s) : connectionsBound L t := by
  unfold connectionsBound at *
  rw [hc, hw]
  exact h

theorem connectionsBound_connect (L : Nat → Prop) (s : AddressWidget) (c : Connection)
    (h : connectionsBound L s)
    (hc : ∃ w, s.m_window = some w ∧
      (c = aboutToCloseOf w ∨ c = iconChangedOf w ∨ c = actionChangedOf w)) :
    connectionsBound L (s.connect c) := by
  intro d hd
  simp only [AddressWidget.connect, List.mem_append, List.mem_singleton] at hd
  rcases hd with hd | rfl
  · exact h d hd
  · exact Or.inr (Or.inr hc)

theorem connectionsBound_disconnect (L : Nat → Prop) (s : AddressWidget) (c : Connection)
    (h : connectionsBound L s) : connectionsBound L (s.disconnect c) := by
  intro d hd
  simp only [AddressWidget.disconnect, List.mem_filter] at hd
  exact h d hd.1

theorem connectionsBound_mono (L M : Nat → Prop) (s : AddressWidget)
    (hLM : ∀ w, L w → M w ∨ s.m_window = some w) (h : connectionsBound L s) :
    connectionsBound M s := by
  intro c hc
  rcases h c hc with h1 | ⟨w, hL, hcw⟩ | h3
  · exact Or.inl h1
  · rcases hLM w hL with hM | hb
    · exact Or.inr (Or.inl ⟨w, hM, hcw⟩)
    · exact Or.inr (Or.inr ⟨w, hb, Or.inr (Or.inr hcw)⟩)
  · exact Or.inr (Or.inr h3)

theorem setWindow_none_eq (env : Env) (s : AddressWidget) :
    setWindow env s none = updateLoadPlugins env { detachWindow env s with m_window := none } :=
  rfl

theorem setWindow_some_eq (env : Env) (s : AddressWidget) (w : Nat) :
    setWindow env s (some w) =
      updateLoadPlugins env
        (attachWindow env { detachWindow env s with m_window := some w } w) :=
  rfl

theorem detachWindow_left (L : Nat → Prop) (env : Env) (s : AddressWidget)
    (hdet : ∀ old, s.m_window = some old → actionChangedOf old ∈ s.connections →
      env.hasLoadPluginsAction old = true ∨ L old)
    (h : connectionsBound L s) :
    ∀ c ∈ (detachWindow env s).connections,
      (∀ w, ¬ c.fromPage w) ∨ ∃ w, L w ∧ c = actionChangedOf w := by
  intro c hc
  unfold detachWindow at hc
  cases hw : s.m_window with
  | none =>
    rw [hw] at hc
    rcases h c hc with h1 | h1 | ⟨w, h1, -⟩
    · exact Or.inl h1
    · exact Or.inr h1
    · rw [hw] at h1
      cases h1
  | some old =>
    rw [hw] at hc
    dsimp only at hc
    have hmem : c ∈ s.connections ∧ c ≠ aboutToCloseOf old ∧ c ≠ iconChangedOf old ∧
        (env.hasLoadPluginsAction old = true → c ≠ actionChangedOf old) := by
      split at hc
      · next ha =>
        simp only [AddressWidget.disconnect, List.mem_filter, decide_eq_true_eq] at hc
        exact ⟨hc.1.1.1, hc.1.1.2, hc.1.2, fun _ => hc.2⟩
      · next ha =>
        simp only [AddressWidget.disconnect, List.mem_filter, decide_eq_true_eq] at hc
        exact ⟨hc.1.1, hc.1.2, hc.2, fun hact => absurd hact ha⟩
    obtain ⟨hin, h1, h2, h3⟩ := hmem
    rcases h c hin with hnp | hleft | ⟨w, hwb, hcase⟩
    · exact Or.inl hnp
    · exact Or.inr hleft
    · rw [hw] at hwb
      cases hwb
      rcases hcase with hcase | hcase | hcase
      · exact absurd hcase h1
      · exact absurd hcase h2
      · rcases hdet old hw (hcase ▸ hin) with hact | hL
        · exact absurd hcase (h3 hact)
        · exact Or.inr ⟨old, hL, hcase⟩

theorem attachWindow_bound (L : Nat → Prop) (env : Env) (s : AddressWidget) (w : Nat)
    (hw : s.m_window = some w) (h : connectionsBound L s) :
    connectionsBound L (attachWindow env s w) ∧ (attachWindow env s w).m_window = some w := by
  unfold attachWindow
  dsimp only
  have ha : ∀ a : AddressWidget, connectionsBound L a → a.m_window = some w →
      connectionsBound L
          (if env.hasLoadPluginsAction w = true then
            (a.connect (aboutToCloseOf w)).connect (actionChangedOf w)
          else a.connect (aboutToCloseOf w)) ∧
        (if env.hasLoadPluginsAction w = true then
            (a.connect (aboutToCloseOf w)).connect (actionChangedOf w)
          else a.connect (aboutToCloseOf w)).m_window = some w := by
    intro a hb hwa
    have h1 : connectionsBound L (a.connect (aboutToCloseOf w)) :=
      connectionsBound_connect L a _ hb ⟨w, hwa, Or.inl rfl⟩
    split
    · exact ⟨connectionsBound_connect L _ _ h1 ⟨w, hwa, Or.inr (Or.inr rfl)⟩, hwa⟩
    · exact ⟨h1, hwa⟩
  by_cases hu : s.m_urlIconLabel ≠ none
  · rw [if_pos hu]
    obtain ⟨h3, h4⟩ := setUrl_frame env (setIcon s (env.getIcon w)) (env.getUrl w)
    have hb : connectionsBound L (setUrl env (setIcon s (env.getIcon w)) (env.getUrl w)) :=
      connectionsBound_of_eq L s _ h3 h4 h
    have hwu : (setUrl env (setIcon s (env.getIcon w)) (env.getUrl w)).m_window = some w :=
      h4.trans hw
    exact ha _ (connectionsBound_connect L _ _ hb ⟨w, hwu, Or.inr (Or.inl rfl)⟩) hwu
  · rw [if_neg hu]
    exact ha s h hw

theorem setWindow_bound (L : Nat → Prop) (env : Env) (s : AddressWidget)
    (window : Option Nat)
    (hdet : ∀ old, s.m_window = some old → actionChangedOf old ∈ s.connections →
      env.hasLoadPluginsAction old = true ∨ L old)
    (h : connectionsBound L s) :
    connectionsBound L (setWindow env s window) ∧
      (setWindow env s window).m_window = window := by
  have hd := detachWindow_left L env s hdet h
  have hb : ∀ v : Option Nat,
      connectionsBound L { detachWindow env s with m_window := v } := by
    intro v c hc
    rcases hd c hc with h1 | h1
    · exact Or.inl h1
    · exact Or.inr (Or.inl h1)
  cases window with
  | none =>
    rw [setWindow_none_eq]
    obtain ⟨h1, h2⟩ := updateLoadPlugins_frame env { detachWindow env s with m_window := none }
    exact ⟨connectionsBound_of_eq L _ _ h1 h2 (hb none), h2⟩
  | some w =>
    rw [setWindow_some_eq]
    obtain ⟨h3, h4⟩ := attachWindow_bound L env
      { detachWindow env s with m_window := some w } w rfl (hb (some w))
    obtain ⟨h1, h2⟩ := updateLoadPlugins_frame env
      (attachWindow env { detachWindow env s with m_window := some w } w)
    exact ⟨connectionsBound_of_eq L _ _ h1 h2 h3, h2.trans h4⟩

theorem boundTo_same (L : Nat → Prop) (a b : AddressWidget) (w : Option Nat)
    (hc : b.connections = a.connections) (hw : b.m_window = a.m_window)
    (h : boundTo L w a) : boundTo L w b :=
  ⟨connectionsBound_of_eq L a b hc hw h.1, hw.trans h.2⟩

theorem boundTo_updateIcons (L : Nat → Prop) (a : AddressWidget) (w : Option Nat)
    (h : boundTo L w a) : boundTo L w (updateIcons a) :=
  boundTo_same L a _ w rfl rfl h

theorem boundTo_updateLoadPlugins (L : Nat → Prop) (env : Env) (a : AddressWidget)
    (w : Option Nat) (h : boundTo L w a) : boundTo L w (updateLoadPlugins env a) :=
  boundTo_same L a _ w (updateLoadPlugins_frame env a).1 (updateLoadPlugins_frame env a).2 h

theorem boundTo_connectIcon (L : Nat → Prop) (a : AddressWidget) (w : Option Nat)
    (h : boundTo L w a) :
    boundTo L w (match a.m_window with
      | some v => a.connect (iconChangedOf v)
      | none => a) := by
  split
  · next v hv => exact ⟨connectionsBound_connect L a _ h.1 ⟨v, hv, Or.inr (Or.inl rfl)⟩, h.2⟩
  · exact h

theorem boundTo_disconnectIcon (L : Nat → Prop) (a : AddressWidget) (w : Option Nat)
    (h : boundTo L w a) :
    boundTo L w (match a.m_window with
      | some v => a.disconnect (iconChangedOf v)
      | none => a) := by
  split
  · exact ⟨connectionsBound_disconnect L a _ h.1, h.2⟩
  · exact h

theorem optionChanged_bound (L : Nat → Prop) (env : Env) (s : AddressWidget)
    (option : String) (value : Bool) (h : connectionsBound L s) :
    boundTo L s.m_window (optionChanged env s option value) := by
  have hs : boundTo L s.m_window s := ⟨h, rfl⟩
  unfold optionChanged
  by_cases h1 : option = "AddressField/ShowBookmarkIcon"
  · rw [if_pos h1]
    split_ifs <;> exact boundTo_same L s _ _ rfl rfl hs
  rw [if_neg h1]
  by_cases h2 : option = "AddressField/ShowUrlIcon"
  · rw [if_pos h2]
    by_cases h3 : value = true ∧ s.m_urlIconLabel = none
    · rw [if_pos h3]
      apply boundTo_updateIcons
      apply boundTo_connectIcon
      exact boundTo_same L s _ _ rfl rfl hs
    · rw [if_neg h3]
      apply boundTo_disconnectIcon L
      by_cases h4 : ¬ value = true ∧ s.m_urlIconLabel ≠ none
      · rw [if_pos h4]
        exact boundTo_same L s _ _ rfl rfl hs
      · rw [if_neg h4]
        exact boundTo_same L s _ _ rfl rfl hs
  rw [if_neg h2]
  by_cases h5 : option = "AddressField/ShowLoadPluginsIcon" ∧ s.m_window ≠ none
  · rw [if_pos h5]
    split
    · next w hw =>
      apply boundTo_updateLoadPlugins
      have hact : boundTo L s.m_window (s.connect (actionChangedOf w)) :=
        ⟨connectionsBound_connect L s _ h ⟨w, hw, Or.inr (Or.inr rfl)⟩, rfl⟩
      have hdis : boundTo L s.m_window (s.disconnect (actionChangedOf w)) :=
        ⟨connectionsBound_disconnect L s _ h, rfl⟩
      by_cases hv : value = true
      · rw [if_pos hv]
        by_cases ha : env.hasLoadPluginsAction w = true
        · rw [if_pos ha]
          exact hact
        · rw [if_neg ha]
          exact hs
      · rw [if_neg hv]
        by_cases ha : env.hasLoadPluginsAction w = true
        · rw [if_pos ha]
          exact hdis
        · rw [if_neg ha]
          exact hs
    · exact hs
  · rw [if_neg h5]
    exact hs

theorem connectionsBound_connect_other (L : Nat → Prop) (s : AddressWidget)
    (c : Connection) (h : connectionsBound L s) (hc : ∀ w, ¬ c.fromPage w) :
    connectionsBound L (s.connect c) := by
  intro d hd
  simp only [AddressWidget.connect, List.mem_append, List.mem_singleton] at hd
  rcases hd with hd | rfl
  · exact h d hd
  · exact Or.inl hc

theorem create_bound (L : Nat → Prop) (env : Env) (window : Option Nat) (simpleMode : Bool)
    (width height : Int) :
    connectionsBound L (AddressWidget.create env window simpleMode width height) := by
  unfold AddressWidget.create
  dsimp only
  apply connectionsBound_connect_other
  · apply connectionsBound_connect_other
    · have h1 := (setWindow_bound L env
        { m_window := none, m_bookmarkLabel := none, m_loadPluginsLabel := none,
          m_urlIconLabel := none, m_simpleMode := simpleMode, completion := "", text := "",
          hasFocus := false, width := width, height := height, minimumWidth := 0,
          textMarginLeft := 0, placeholderText := "", mouseTracking := false,
          connections := [], bookmarkLabels := 0, loadPluginsLabels := 0,
          urlIconLabels := 0 } window (fun _ ho => by cases ho) (fun c hc => by cases hc)).1
      split
      · apply connectionsBound_connect_other
        · refine connectionsBound_of_eq L _ _ rfl rfl
            (optionChanged_bound L env _ _ _
              (optionChanged_bound L env _ _ _ ?_).1).1
          exact connectionsBound_of_eq L _ _ rfl rfl h1
        · intro w hw
          rcases hw with hw | hw <;> cases hw
      · exact connectionsBound_of_eq L _ _ rfl rfl h1
    · intro w hw
      rcases hw with hw | hw <;> cases hw
  · intro w hw
    rcases hw with hw | hw <;> cases hw

theorem apply_bound (L : Nat → Prop) (s : AddressWidget) (c : Call)
    (hc : c.canDetach s ∨ ∀ w, L w) (h : connectionsBound L s) :
    connectionsBound L (c.apply s) := by
  cases c with
  | setWindow env window =>
    refine (setWindow_bound L env s window ?_ h).1
    intro old ho hmem
    rcases hc with hc | hc
    · exact Or.inl (hc old ho hmem)
    · exact Or.inr (hc old)
  | optionChanged env option value => exact (optionChanged_bound L env s option value h).1
  | updateLoadPlugins env =>
    exact connectionsBound_of_eq L s _ (updateLoadPlugins_frame env s).1
      (updateLoadPlugins_frame env s).2 h
  | updateBookmark env =>
    exact connectionsBound_of_eq L s _ (updateBookmark_frame env s).1
      (updateBookmark_frame env s).2 h
  | setIcon icon => exact connectionsBound_of_eq L s _ rfl rfl h
  | setUrl env url =>
    exact connectionsBound_of_eq L s _ (setUrl_frame env s url).1 (setUrl_frame env s url).2 h

theorem runCalls_bound_any (calls : List Call) :
    ∀ s : AddressWidget, connectionsBound (fun _ => True) s →
      connectionsBound (fun _ => True) (runCalls s calls) := by
  induction calls with
  | nil => intro s h; exact h
  | cons c cs ih =>
    intro s h
    exact ih (c.apply s) (apply_bound _ s c (Or.inr fun _ => trivial) h)

theorem runCalls_bound_strict (calls : List Call) :
    ∀ s : AddressWidget, canDetachAll s calls → connectionsBound (fun _ => False) s →
      connectionsBound (fun _ => False) (runCalls s calls) := by
  induction calls with
  | nil => intro s _ h; exact h
  | cons c cs ih =>
    intro s hc h
    exact ih (c.apply s) hc.2 (apply_bound _ s c (Or.inl hc.1) h)

theorem only_from_bound (s : AddressWidget) (B : Nat) (hB : s.m_window = some B)
    (h : connectionsBound (fun _ => False) s) :
    ∀ c ∈ s.connections, ∀ w, c.fromPage w → w = B := by
  intro c hc w hcw
  rcases h c hc with hnp | ⟨_, hF, -⟩ | ⟨v, hv, hcase⟩
  · exact absurd hcw (hnp w)
  · exact absurd hF id
  · rw [hB] at hv
    cases hv
    rcases hcase with rfl | rfl | rfl <;>
      rcases hcw with hcw | hcw <;> cases hcw <;> rfl

theorem updateLoadPlugins_shape (env : Env) (s : AddressWidget) :
    (updateLoadPlugins env s).shape =
      { s.shape with loadPlugins := s.shape.loadPlugins.toggle (canLoadPlugins env s.m_window) } := by
  unfold updateLoadPlugins
  dsimp only
  rw [show (env.getValue "AddressField/ShowLoadPluginsIcon" &&
      (match s.m_window with
       | some w => env.hasLoadPluginsAction w && env.loadPluginsEnabled w
       | none => false)) = canLoadPlugins env s.m_window from rfl]
  cases hl : s.m_loadPluginsLabel <;> cases hc : canLoadPlugins env s.m_window <;>
    simp [AddressWidget.shape, SlotShape.toggle, updateIcons, hl]

theorem updateBookmark_shape (env : Env) (s : AddressWidget) :
    (updateBookmark env s).shape = s.shape := by
  unfold updateBookmark
  split
  · rfl
  · next l hl =>
    dsimp only
    split <;> simp [AddressWidget.shape, hl]

theorem setText_shape (s : AddressWidget) (t : String) : (setText s t).shape = s.shape := by
  unfold setText
  split <;> rfl

theorem setIcon_shape (s : AddressWidget) (icon : QIcon) : (setIcon s icon).shape = s.shape := by
  simp [setIcon, AddressWidget.shape]

theorem setUrl_shape (env : Env) (s : AddressWidget) (u : QUrl) :
    (setUrl env s u).shape = s.shape := by
  unfold setUrl
  dsimp only
  split
  · split
    · rw [setText_shape, updateBookmark_shape]
    · exact updateBookmark_shape env s
  · exact updateBookmark_shape env s

theorem detachWindow_shape (env : Env) (s : AddressWidget) :
    (detachWindow env s).shape = s.shape := by
  unfold detachWindow
  split
  · dsimp only
    split <;> rfl
  · rfl

theorem attachWindow_shape (env : Env) (s : AddressWidget) (w : Nat) :
    (attachWindow env s w).shape = s.shape := by
  have h : (if s.m_urlIconLabel ≠ none then
      (setUrl env (setIcon s (env.getIcon w)) (env.getUrl w)).connect (iconChangedOf w)
        else s).shape = s.shape := by
    split
    · exact (setUrl_shape env _ _).trans (setIcon_shape s _)
    · rfl
  unfold attachWindow
  dsimp only
  split <;> exact h

theorem setWindow_shape (env : Env) (s : AddressWidget) (window : Option Nat) :
    (setWindow env s window).shape =
      { s.shape with
        window := window
        loadPlugins := s.shape.loadPlugins.toggle (canLoadPlugins env window) } := by
  have hd := detachWindow_shape env s
  cases window with
  | none =>
    rw [setWindow_none_eq, updateLoadPlugins_shape]
    simp only [AddressWidget.shape] at hd ⊢
    simp only [Shape.mk.injEq] at hd
    simp [hd]
  | some w =>
    rw [setWindow_some_eq, updateLoadPlugins_shape]
    have ha := attachWindow_shape env { detachWindow env s with m_window := some w } w
    have hw : (attachWindow env { detachWindow env s with m_window := some w } w).m_window
        = some w := congrArg Shape.window ha
    rw [hw, ha]
    simp only [AddressWidget.shape] at hd ⊢
    simp only [Shape.mk.injEq] at hd
    simp [hd]

theorem optionChanged_shape (env : Env) (s : AddressWidget) (option : String) (value : Bool) :
    (optionChanged env s option value).shape =
      if option = "AddressField/ShowBookmarkIcon" then
        { s.shape with bookmark := s.shape.bookmark.toggle value }
      else if option = "AddressField/ShowUrlIcon" then
        { s.shape with urlIcon := s.shape.urlIcon.toggle value }
      else if option = "AddressField/ShowLoadPluginsIcon" ∧ s.m_window ≠ none then
        { s.shape with loadPlugins := s.shape.loadPlugins.toggle (canLoadPlugins env s.m_window) }
      else s.shape := by
  unfold optionChanged
  by_cases h1 : option = "AddressField/ShowBookmarkIcon"
  · rw [if_pos h1, if_pos h1]
    cases hl : s.m_bookmarkLabel <;> cases value <;>
      simp [AddressWidget.shape, SlotShape.toggle, updateIcons, hl]
  rw [if_neg h1, if_neg h1]
  by_cases h2 : option = "AddressField/ShowUrlIcon"
  · rw [if_pos h2, if_pos h2]
    cases hl : s.m_urlIconLabel <;> cases value <;> cases hw : s.m_window <;>
      simp [AddressWidget.shape, SlotShape.toggle, updateIcons, hl, hw,
        AddressWidget.connect, AddressWidget.disconnect]
  rw [if_neg h2, if_neg h2]
  by_cases h5 : option = "AddressField/ShowLoadPluginsIcon" ∧ s.m_window ≠ none
  · rw [if_pos h5, if_pos h5]
    split
    · next w hw =>
      rw [updateLoadPlugins_shape]
      have hsh : ∀ a : AddressWidget, a.shape = s.shape → a.m_window = s.m_window →
          ({ a.shape with loadPlugins := a.shape.loadPlugins.toggle (canLoadPlugins env a.m_window) }
            : Shape) =
          { s.shape with loadPlugins := s.shape.loadPlugins.toggle (canLoadPlugins env s.m_window) } := by
        intro a h3 h4
        rw [h3, h4]
      apply hsh
      · split_ifs <;> rfl
      · split_ifs <;> rfl
    · next hw => exact absurd hw h5.2
  · rw [if_neg h5, if_neg h5]

theorem toggle_fst (want : Bool) (a : SlotShape) : (a.toggle want).1 = want := by
  obtain ⟨p, n⟩ := a
  cases want <;> cases p <;> simp [SlotShape.toggle]

theorem toggle_snd (want : Bool) (a : SlotShape) (h : a.2 = if a.1 then 1 else 0) :
    (a.toggle want).2 = if want then 1 else 0 := by
  obtain ⟨p, n⟩ := a
  cases want <;> cases p <;> simp_all [SlotShape.toggle]

theorem canLoadPlugins_true (env : Env) (window : Option Nat)
    (h : canLoadPlugins env window = true) :
    env.getValue showLoadPluginsIcon = true ∧ window ≠ none := by
  unfold canLoadPlugins at h
  cases window with
  | none => simp at h
  | some w =>
    simp only [Bool.and_eq_true] at h
    exact ⟨h.1, by simp⟩

theorem follows_loadPlugins (g : String → Bool) (tb tu : Bool) (a : Shape) (want : Bool)
    (window : Option Nat) (h : a.follows g tb tu)
    (hwant : want = true → g showLoadPluginsIcon = true ∧ window ≠ none) :
    Shape.follows g tb tu
      { a with window := window, loadPlugins := a.loadPlugins.toggle want } := by
  obtain ⟨h1, h2, h3, h4, h5, h6, h8, h7b, h7u⟩ := h
  refine ⟨h1, h2, ?_, h4, h5, ?_, ?_, h7b, h7u⟩
  · exact (toggle_snd want a.loadPlugins h3).trans (by rw [toggle_fst])
  · intro hp
    rw [toggle_fst] at hp
    exact (hwant hp).1
  · intro hp
    rw [toggle_fst] at hp
    exact (hwant hp).2

theorem setWindow_follows (g : String → Bool) (tb tu : Bool) (world : World)
    (s : AddressWidget) (window : Option Nat) (h : s.shape.follows g tb tu) :
    (setWindow { toWorld := world, getValue := g } s window).shape.follows g tb tu := by
  rw [setWindow_shape]
  exact follows_loadPlugins g tb tu s.shape _ window h (canLoadPlugins_true _ window)

theorem updateLoadPlugins_follows (g : String → Bool) (tb tu : Bool) (world : World)
    (s : AddressWidget) (h : s.shape.follows g tb tu) :
    (updateLoadPlugins { toWorld := world, getValue := g } s).shape.follows g tb tu := by
  rw [updateLoadPlugins_shape]
  exact follows_loadPlugins g tb tu s.shape _ s.m_window h (canLoadPlugins_true _ s.m_window)

theorem upd_ne (g : String → Bool) (o k : String) (v : Bool) (h : k ≠ o) :
    (fun k => if k = o then v else g k) k = g k := if_neg h

theorem upd_eq (g : String → Bool) (o : String) (v : Bool) :
    (fun k => if k = o then v else g k) o = v := if_pos rfl

theorem optionChanged_follows (g : String → Bool) (tb tu : Bool) (world : World)
    (s : AddressWidget) (option : String) (value : Bool) (h : s.shape.follows g tb tu) :
    (optionChanged { toWorld := world, getValue := fun k => if k = option then value else g k }
      s option value).shape.follows (fun k => if k = option then value else g k)
        (tb || decide (option = showBookmarkIcon)) (tu || decide (option = showUrlIcon)) := by
  obtain ⟨h1, h2, h3, h4, h5, h6, h8, h7b, h7u⟩ := h
  have hbu : showBookmarkIcon ≠ showUrlIcon := by decide
  have hbl : showBookmarkIcon ≠ showLoadPluginsIcon := by decide
  have hul : showUrlIcon ≠ showLoadPluginsIcon := by decide
  rw [optionChanged_shape]
  by_cases o1 : option = "AddressField/ShowBookmarkIcon"
  · rw [if_pos o1]
    subst o1
    refine ⟨?_, h2, h3, ?_, ?_, ?_, h8, ?_, ?_⟩
    · exact (toggle_snd value _ h1).trans (by rw [toggle_fst])
    · intro hp
      rw [toggle_fst] at hp
      exact (upd_eq g _ value).trans hp
    · intro hp
      exact (upd_ne g _ _ value hbu.symm).trans (h5 hp)
    · intro hp
      exact (upd_ne g _ _ value hbl.symm).trans (h6 hp)
    · intro _
      exact (toggle_fst value _).trans (upd_eq g _ value).symm
    · intro ht
      have ht1 : tu = true := by
        simpa [showBookmarkIcon, showUrlIcon] using ht
      exact (h7u ht1).trans (upd_ne g _ _ value hbu.symm).symm
  rw [if_neg o1]
  by_cases o2 : option = "AddressField/ShowUrlIcon"
  · rw [if_pos o2]
    subst o2
    refine ⟨h1, ?_, h3, ?_, ?_, ?_, h8, ?_, ?_⟩
    · exact (toggle_snd value _ h2).trans (by rw [toggle_fst])
    · intro hp
      exact (upd_ne g _ _ value hbu).trans (h4 hp)
    · intro hp
      rw [toggle_fst] at hp
      exact (upd_eq g _ value).trans hp
    · intro hp
      exact (upd_ne g _ _ value hul.symm).trans (h6 hp)
    · intro ht
      have ht1 : tb = true := by
        simpa [showBookmarkIcon, showUrlIcon] using ht
      exact (h7b ht1).trans (upd_ne g _ _ value hbu).symm
    · intro _
      exact (toggle_fst value _).trans (upd_eq g _ value).symm
  rw [if_neg o2]
  have k1 : (if showBookmarkIcon = option then value else g showBookmarkIcon)
      = g showBookmarkIcon := if_neg (fun e => o1 e.symm)
  have k2 : (if showUrlIcon = option then value else g showUrlIcon) = g showUrlIcon :=
    if_neg (fun e => o2 e.symm)
  have t1 : (tb || decide (option = showBookmarkIcon)) = true → tb = true := by
    intro ht
    simpa [showBookmarkIcon, o1] using ht
  have t2 : (tu || decide (option = showUrlIcon)) = true → tu = true := by
    intro ht
    simpa [showUrlIcon, o2] using ht
  by_cases o3 : option = "AddressField/ShowLoadPluginsIcon" ∧ s.m_window ≠ none
  · rw [if_pos o3]
    have hf : Shape.follows (fun k => if k = option then value else g k)
        (tb || decide (option = showBookmarkIcon)) (tu || decide (option = showUrlIcon))
        { s.shape with
          window := s.m_window
          loadPlugins := s.shape.loadPlugins.toggle
            (canLoadPlugins
              { toWorld := world, getValue := fun k => if k = option then value else g k }
              s.m_window) } := by
      refine ⟨h1, h2, ?_, ?_, ?_, ?_, ?_, ?_, ?_⟩
      · exact (toggle_snd _ _ h3).trans (by rw [toggle_fst])
      · intro hp
        exact k1.trans (h4 hp)
      · intro hp
        exact k2.trans (h5 hp)
      · intro hp
        rw [toggle_fst] at hp
        exact (canLoadPlugins_true _ _ hp).1
      · intro _
        exact o3.2
      · intro ht
        exact (h7b (t1 ht)).trans k1.symm
      · intro ht
        exact (h7u (t2 ht)).trans k2.symm
    exact hf
  · rw [if_neg o3]
    refine ⟨h1, h2, h3, ?_, ?_, ?_, h8, ?_, ?_⟩
    · intro hp
      exact k1.trans (h4 hp)
    · intro hp
      exact k2.trans (h5 hp)
    · intro hp
      have hw : s.m_window ≠ none := h8 hp
      have ho : option ≠ "AddressField/ShowLoadPluginsIcon" := fun e => o3 ⟨e, hw⟩
      exact (if_neg (fun e => ho e.symm)).trans (h6 hp)
    · intro ht
      exact (h7b (t1 ht)).trans k1.symm
    · intro ht
      exact (h7u (t2 ht)).trans k2.symm

theorem follows_weaken (g : String → Bool) (tb tu tb1 tu1 : Bool) (a : Shape)
    (hb : tb1 = true → tb = true) (hu : tu1 = true → tu = true) (h : a.follows g tb tu) :
    a.follows g tb1 tu1 := by
  obtain ⟨h1, h2, h3, h4, h5, h6, h8, h7b, h7u⟩ := h
  exact ⟨h1, h2, h3, h4, h5, h6, h8, fun t => h7b (hb t), fun t => h7u (hu t)⟩

theorem connect_shape (s : AddressWidget) (c : Connection) : (s.connect c).shape = s.shape :=
  rfl

theorem optionChanged_follows_same (g : String → Bool) (tb tu : Bool) (world : World)
    (s : AddressWidget) (option : String) (h : s.shape.follows g tb tu) :
    (optionChanged { toWorld := world, getValue := g } s option (g option)).shape.follows g
      (tb || decide (option = showBookmarkIcon)) (tu || decide (option = showUrlIcon)) := by
  have hg : (fun k => if k = option then g option else g k) = g := by
    funext k
    by_cases hk : k = option
    · rw [if_pos hk, hk]
    · rw [if_neg hk]
  have h1 := optionChanged_follows g tb tu world s option (g option) h
  rw [hg] at h1
  exact h1

theorem create_follows (g : String → Bool) (world : World) (window : Option Nat)
    (simpleMode : Bool) (width height : Int) :
    (AddressWidget.create { toWorld := world, getValue := g } window simpleMode
      width height).shape.follows g (!simpleMode) (!simpleMode) ∧
    (AddressWidget.create { toWorld := world, getValue := g } window simpleMode
      width height).m_simpleMode = simpleMode := by
  have h0 : Shape.follows g false false (AddressWidget.shape
      { m_window := none, m_bookmarkLabel := none, m_loadPluginsLabel := none,
        m_urlIconLabel := none, m_simpleMode := simpleMode, completion := "", text := "",
        hasFocus := false, width := width, height := height, minimumWidth := 0,
        textMarginLeft := 0, placeholderText := "", mouseTracking := false,
        connections := [], bookmarkLabels := 0, loadPluginsLabels := 0,
        urlIconLabels := 0 }) := by
    simp [Shape.follows, AddressWidget.shape]
  have h1 := setWindow_follows g false false world _ window h0
  have hm : ∀ (a : AddressWidget) (o : String) (v : Bool),
      (optionChanged { toWorld := world, getValue := g } a o v).m_simpleMode = a.m_simpleMode := by
    intro a o v
    have h2 := congrArg Shape.simpleMode
      (optionChanged_shape { toWorld := world, getValue := g } a o v)
    refine Eq.trans h2 ?_
    split_ifs <;> rfl
  have hsm := congrArg Shape.simpleMode
    (setWindow_shape { toWorld := world, getValue := g }
      { m_window := none, m_bookmarkLabel := none, m_loadPluginsLabel := none,
        m_urlIconLabel := none, m_simpleMode := simpleMode, completion := "", text := "",
        hasFocus := false, width := width, height := height, minimumWidth := 0,
        textMarginLeft := 0, placeholderText := "", mouseTracking := false,
        connections := [], bookmarkLabels := 0, loadPluginsLabels := 0,
        urlIconLabels := 0 } window)
  unfold AddressWidget.create
  dsimp only
  rw [connect_shape, connect_shape]
  cases simpleMode with
  | true =>
    have hsm1 : (setWindow { toWorld := world, getValue := g } _ window).m_simpleMode = true := hsm
    rw [if_neg (by rw [hsm1]; simp)]
    exact ⟨h1, hsm1⟩
  | false =>
    have hsm1 : (setWindow { toWorld := world, getValue := g } _ window).m_simpleMode = false := hsm
    rw [if_pos (by rw [hsm1]; simp)]
    refine ⟨?_, ?_⟩
    · rw [connect_shape]
      exact follows_weaken g _ _ _ _ _ (fun _ => by decide) (fun _ => by decide)
        (optionChanged_follows_same g _ _ world _ showUrlIcon
          (optionChanged_follows_same g _ _ world _ showBookmarkIcon h1))
    · show (optionChanged _ (optionChanged _ _ _ _) _ _).m_simpleMode = false
      rw [hm, hm]
      exact hsm1

theorem step_follows (σ : Sys) (e : Step) (tb tu : Bool)
    (h : σ.widget.shape.follows σ.getValue tb tu) :
    (σ.step e).widget.shape.follows (σ.step e).getValue tb tu ∧
      (σ.step e).widget.m_simpleMode = σ.widget.m_simpleMode := by
  cases e with
  | setWindow world window =>
    exact ⟨setWindow_follows σ.getValue tb tu world σ.widget window h,
      congrArg Shape.simpleMode (setWindow_shape _ σ.widget window)⟩
  | updateLoadPlugins world =>
    exact ⟨updateLoadPlugins_follows σ.getValue tb tu world σ.widget h,
      congrArg Shape.simpleMode (updateLoadPlugins_shape _ σ.widget)⟩
  | setValue world option value =>
    refine ⟨follows_weaken _ _ _ tb tu _ ?_ ?_
      (optionChanged_follows σ.getValue tb tu world σ.widget option value h), ?_⟩
    · intro ht
      simp [ht]
    · intro ht
      simp [ht]
    · refine Eq.trans (congrArg Shape.simpleMode (optionChanged_shape _ σ.widget option value)) ?_
      split_ifs <;> rfl

theorem run_follows (steps : List Step) (tb tu : Bool) :
    ∀ σ : Sys, σ.widget.shape.follows σ.getValue tb tu →
      (σ.run steps).widget.shape.follows (σ.run steps).getValue tb tu ∧
        (σ.run steps).widget.m_simpleMode = σ.widget.m_simpleMode := by
  induction steps with
  | nil => intro σ h; exact ⟨h, rfl⟩
  | cons e es ih =>
    intro σ h
    obtain ⟨h1, h2⟩ := step_follows σ e tb tu h
    obtain ⟨h3, h4⟩ := ih (σ.step e) h1
    exact ⟨h3, h4.trans h2⟩

/-- C5: in every state reached from the constructor (simple mode or not) by rebindings,
runs of `updateLoadPlugins` and option changes delivered through `optionChanged`, each of
Bookmark, PageIcon and PluginsIndicator has one live label when its slot is Present and
none otherwise, a Present slot has its flag (ShowBookmarkIcon, ShowUrlIcon,
ShowLoadPluginsIcon) on in the store, and in full mode Bookmark and PageIcon are
Present exactly when their flags are on. -/
theorem C5_slots_follow_flags (world : World) (getValue : String → Bool)
    (window : Option Nat) (simpleMode : Bool) (width height : Int) (steps : List Step) :
    slotsFollowFlags
      ((Sys.create world getValue window simpleMode width height).run steps) := by
  obtain ⟨hc, hm⟩ := create_follows getValue world window simpleMode width height
  obtain ⟨⟨h1, h2, h3, h4, h5, h6, -, h7b, h7u⟩, hs⟩ :=
    run_follows steps (!simpleMode) (!simpleMode)
      (Sys.create world getValue window simpleMode width height) hc
  refine ⟨h1, h2, h3, h4, h5, h6, ?_⟩
  intro hfull
  have hsm : simpleMode = false := by
    rw [← hm]
    exact hs ▸ hfull
  subst hsm
  exact ⟨h7b rfl, h7u rfl⟩


/-! ## Every label the code makes is 16 pixels wide -/

theorem updateIcons_16 (s : AddressWidget) (h : slotsAre16Wide s) :
    slotsAre16Wide (updateIcons s) := by
  obtain ⟨h1, h2, h3⟩ := h
  refine ⟨?_, ?_, ?_⟩ <;> intro l hl <;>
    simp only [updateIcons, Option.mem_def, Option.map_eq_some'] at hl <;>
    obtain ⟨l0, hl0, rfl⟩ := hl
  · exact h1 l0 hl0
  · exact h2 l0 hl0
  · exact h3 l0 hl0

theorem updateBookmark_16 (env : Env) (s : AddressWidget) (h : slotsAre16Wide s) :
    slotsAre16Wide (updateBookmark env s) := by
  obtain ⟨h1, h2, h3⟩ := h
  unfold updateBookmark
  split
  · exact ⟨h1, h2, h3⟩
  · next l0 hl0 =>
    dsimp only
    split <;> refine ⟨?_, h2, h3⟩ <;> intro l hl <;>
      simp only [Option.mem_def, Option.some.injEq] at hl <;> subst hl <;> exact h1 l0 hl0

theorem updateLoadPlugins_16 (env : Env) (s : AddressWidget) (h : slotsAre16Wide s) :
    slotsAre16Wide (updateLoadPlugins env s) := by
  obtain ⟨h1, h2, h3⟩ := h
  unfold updateLoadPlugins
  dsimp only
  split_ifs
  · apply updateIcons_16
    refine ⟨h1, ?_, h3⟩
    intro l hl
    simp only [Option.mem_def, Option.some.injEq] at hl
    subst hl
    rfl
  · apply updateIcons_16
    refine ⟨h1, ?_, h3⟩
    intro l hl
    cases hl
  · exact ⟨h1, h2, h3⟩

theorem setIcon_16 (s : AddressWidget) (icon : QIcon) (h : slotsAre16Wide s) :
    slotsAre16Wide (setIcon s icon) := by
  obtain ⟨h1, h2, h3⟩ := h
  refine ⟨h1, h2, ?_⟩
  intro l hl
  simp only [setIcon, Option.mem_def, Option.map_eq_some'] at hl
  obtain ⟨l0, hl0, rfl⟩ := hl
  exact h3 l0 hl0

theorem slotsAre16Wide_of_eq (s t : AddressWidget) (hb : t.m_bookmarkLabel = s.m_bookmarkLabel)
    (hp : t.m_loadPluginsLabel = s.m_loadPluginsLabel)
    (hu : t.m_urlIconLabel = s.m_urlIconLabel) (h : slotsAre16Wide s) : slotsAre16Wide t := by
  unfold slotsAre16Wide at *
  rw [hb, hp, hu]
  exact h

theorem setText_16 (s : AddressWidget) (t : String) (h : slotsAre16Wide s) :
    slotsAre16Wide (setText s t) := by
  unfold setText
  split
  · exact h
  · exact slotsAre16Wide_of_eq s _ rfl rfl rfl h

theorem setUrl_16 (env : Env) (s : AddressWidget) (u : QUrl) (h : slotsAre16Wide s) :
    slotsAre16Wide (setUrl env s u) := by
  have hb := updateBookmark_16 env s h
  unfold setUrl
  dsimp only
  split
  · split
    · exact setText_16 _ _ hb
    · exact hb
  · exact hb

theorem setWindow_16 (env : Env) (s : AddressWidget) (window : Option Nat)
    (h : slotsAre16Wide s) : slotsAre16Wide (setWindow env s window) := by
  have hd : slotsAre16Wide (detachWindow env s) := by
    unfold detachWindow
    split
    · dsimp only
      split <;> exact slotsAre16Wide_of_eq s _ rfl rfl rfl h
    · exact h
  cases window with
  | none =>
    rw [setWindow_none_eq]
    exact updateLoadPlugins_16 env _ (slotsAre16Wide_of_eq _ _ rfl rfl rfl hd)
  | some w =>
    rw [setWindow_some_eq]
    apply updateLoadPlugins_16
    have hd1 : slotsAre16Wide { detachWindow env s with m_window := some w } :=
      slotsAre16Wide_of_eq _ _ rfl rfl rfl hd
    have ha : slotsAre16Wide
        (if ({ detachWindow env s with m_window := some w } : AddressWidget).m_urlIconLabel
            ≠ none then
          (setUrl env (setIcon { detachWindow env s with m_window := some w } (env.getIcon w))
            (env.getUrl w)).connect (iconChangedOf w)
        else { detachWindow env s with m_window := some w }) := by
      split
      · exact slotsAre16Wide_of_eq _ _ rfl rfl rfl (setUrl_16 env _ _ (setIcon_16 _ _ hd1))
      · exact hd1
    unfold attachWindow
    dsimp only
    split <;> exact slotsAre16Wide_of_eq _ _ rfl rfl rfl ha

theorem optionChanged_16 (env : Env) (s : AddressWidget) (option : String) (value : Bool)
    (h : slotsAre16Wide s) : slotsAre16Wide (optionChanged env s option value) := by
  obtain ⟨h1, h2, h3⟩ := h
  have hnew : ∀ l0 : QLabel, l0.width = 16 →
      ∀ l ∈ (some l0 : Option QLabel), l.width = 16 := by
    intro l0 hw l hl
    simp only [Option.mem_def, Option.some.injEq] at hl
    subst hl
    exact hw
  have hnone : ∀ l ∈ (none : Option QLabel), l.width = 16 := by
    intro l hl
    cases hl
  unfold optionChanged
  by_cases o1 : option = "AddressField/ShowBookmarkIcon"
  · rw [if_pos o1]
    by_cases c1 : value = true ∧ s.m_bookmarkLabel = none
    · rw [if_pos c1]
      exact updateIcons_16 _ ⟨hnew _ rfl, h2, h3⟩
    · rw [if_neg c1]
      by_cases c2 : ¬ value = true ∧ s.m_bookmarkLabel ≠ none
      · rw [if_pos c2]
        exact updateIcons_16 _ ⟨hnone, h2, h3⟩
      · rw [if_neg c2]
        exact ⟨h1, h2, h3⟩
  rw [if_neg o1]
  by_cases o2 : option = "AddressField/ShowUrlIcon"
  · rw [if_pos o2]
    by_cases c1 : value = true ∧ s.m_urlIconLabel = none
    · rw [if_pos c1]
      apply updateIcons_16
      dsimp only
      split <;> exact ⟨h1, h2, hnew _ rfl⟩
    · rw [if_neg c1]
      dsimp only
      have hs1 : slotsAre16Wide
          (if ¬ value = true ∧ s.m_urlIconLabel ≠ none then
            updateIcons { s with m_urlIconLabel := none, urlIconLabels := s.urlIconLabels - 1 }
          else s) := by
        split
        · exact updateIcons_16 _ ⟨h1, h2, hnone⟩
        · exact ⟨h1, h2, h3⟩
      split <;> exact slotsAre16Wide_of_eq _ _ rfl rfl rfl hs1
  rw [if_neg o2]
  by_cases o3 : option = "AddressField/ShowLoadPluginsIcon" ∧ s.m_window ≠ none
  · rw [if_pos o3]
    split
    · dsimp only
      apply updateLoadPlugins_16
      split_ifs <;> exact slotsAre16Wide_of_eq s _ rfl rfl rfl ⟨h1, h2, h3⟩
    · exact ⟨h1, h2, h3⟩
  · rw [if_neg o3]
    exact ⟨h1, h2, h3⟩

theorem create_16 (env : Env) (window : Option Nat) (simpleMode : Bool) (width height : Int) :
    slotsAre16Wide (AddressWidget.create env window simpleMode width height) := by
  have hnone : ∀ l ∈ (none : Option QLabel), l.width = 16 := by
    intro l hl
    cases hl
  have h1 := setWindow_16 env
    { m_window := none, m_bookmarkLabel := none, m_loadPluginsLabel := none,
      m_urlIconLabel := none, m_simpleMode := simpleMode, completion := "", text := "",
      hasFocus := false, width := width, height := height, minimumWidth := 0,
      textMarginLeft := 0, placeholderText := "", mouseTracking := false,
      connections := [], bookmarkLabels := 0, loadPluginsLabels := 0,
      urlIconLabels := 0 } window ⟨hnone, hnone, hnone⟩
  unfold AddressWidget.create
  dsimp only
  refine slotsAre16Wide_of_eq _ _ rfl rfl rfl ?_
  split
  · exact slotsAre16Wide_of_eq _ _ rfl rfl rfl
      (optionChanged_16 env _ _ _
        (optionChanged_16 env _ _ _ (slotsAre16Wide_of_eq _ _ rfl rfl rfl h1)))
  · exact slotsAre16Wide_of_eq _ _ rfl rfl rfl h1

/-- Supporting fact for C2: the width hypothesis of the layout theorem holds in every
state the constructor and the slots of the widget can produce. -/
theorem runCalls_16 (calls : List Call) :
    ∀ s : AddressWidget, slotsAre16Wide s → slotsAre16Wide (runCalls s calls) := by
  induction calls with
  | nil => intro s h; exact h
  | cons c cs ih =>
    intro s h
    apply ih
    cases c with
    | setWindow env window => exact setWindow_16 env s window h
    | optionChanged env option value => exact optionChanged_16 env s option value h
    | updateLoadPlugins env => exact updateLoadPlugins_16 env s h
    | updateBookmark env => exact updateBookmark_16 env s h
    | setIcon icon => exact setIcon_16 s icon h
    | setUrl env url => exact setUrl_16 env s url h

end Otter
